import Mathlib

/-!
Verification of the VESPER42 screenplay-analysis core: a shallow embedding
of the script parser (scene segmentation, dialogue extraction, tone
heuristic, beat detection) and of the outline generator (structure
computation, success prediction), together with theorems checking the
natural-language specification against the code.

The parser lives in the "Advanced Script Parser" module; the generator in
`backend/generators/outline-generator.js`.  JavaScript strings are modelled
as `List Char`; JS numbers are modelled as `ℕ`/`ℤ`/`ℚ` (all arithmetic the
verified claims touch stays far from any floating-point rounding boundary,
so exact rationals are observationally faithful).  The database collaborator
is modelled by passing the relevant row sets as explicit arguments.
-/

/-- The JS `\s` character class (ASCII part plus NBSP), as used by
`String.prototype.trim` and the `[A-Z\s]` ranges in the parser's regexes. -/
def jsSpace (c : Char) : Bool :=
  c = ' ' || c = '\t' || c = '\n' || c = '\r' || c = '\x0b' || c = '\x0c' || c = ' '

/-- JS `String.prototype.trim`: strip leading and trailing whitespace. -/
def jsTrim (l : List Char) : List Char :=
  ((l.dropWhile jsSpace).reverse.dropWhile jsSpace).reverse

/-- JS `text.split('\n')`: split into lines at newline characters; the empty
text yields one empty line, and a trailing newline yields a trailing empty
line, exactly as in JS. -/
def splitLines : List Char → List (List Char)
  | [] => [[]]
  | c :: rest =>
    if c = '\n' then [] :: splitLines rest
    else
      match splitLines rest with
      | [] => [[c]]
      | l :: ls => (c :: l) :: ls

/-- Uppercase ASCII letter, the `[A-Z]` class. -/
def isUpperAZ (c : Char) : Bool := 'A' ≤ c && c ≤ 'Z'

/-- The parser's character-cue regex `^[A-Z][A-Z\s]{2,}$`: one uppercase
letter followed by at least two characters drawn from `[A-Z\s]`, spanning
the whole line. -/
def capsRe (l : List Char) : Bool :=
  match l with
  | [] => false
  | c :: rest => isUpperAZ c && decide (2 ≤ rest.length) && rest.all (fun d => isUpperAZ d || jsSpace d)

/-- Case-insensitive prefix test (both sides mapped through `toUpper`),
modelling a `/^.../i` anchored regex. -/
def ciPrefix (pat : List Char) (l : List Char) : Bool :=
  (pat.map Char.toUpper).isPrefixOf (l.map Char.toUpper)

/-- The scene-header test `/^(INT\.|EXT\.)/i` applied to the trimmed line. -/
def isSceneHeader (l : List Char) : Bool :=
  ciPrefix "INT.".toList l || ciPrefix "EXT.".toList l

/-- Substring containment (models an unanchored literal regex such as
`/shout/` or `/\.\.\./`). -/
def hasSub (pat : List Char) : List Char → Bool
  | [] => pat.isEmpty
  | c :: rest => pat.isPrefixOf (c :: rest) || hasSub pat rest

/-- JS `\w` word characters, used for `\b` word boundaries. -/
def isWordChar (c : Char) : Bool := c.isAlphanum || c = '_'

/-- Occurrence of `pat` preceded by a word boundary (start of string or a
non-word character), modelling `\bpat`.  The first argument tracks whether
the previous character was a word character. -/
def scanBoundedLeft (pat : List Char) : Bool → List Char → Bool
  | _, [] => false
  | prevWord, c :: rest =>
    (!prevWord && pat.isPrefixOf (c :: rest)) || scanBoundedLeft pat (isWordChar c) rest

/-- Occurrence of `pat` followed by a word boundary (end of string or a
non-word character), modelling `pat\b`. -/
def scanBoundedRight (pat : List Char) : List Char → Bool
  | [] => false
  | c :: rest =>
    (pat.isPrefixOf (c :: rest) &&
      (match (c :: rest).drop pat.length with
       | [] => true
       | d :: _ => !isWordChar d)) || scanBoundedRight pat rest

/-- A parsed Scene record, as accumulated by `extractScenes`.  The field
called `dialogue_ratio` in the source is named `dialogue_frac` here; it is
filled in by the final pass over the closed scenes (0 beforehand, standing
for the JS `null`/absent value, as is `page_end` until the scene closes).
`content_lines` models `content` (the source accumulates the trimmed lines
joined by newlines; splitting that string on newlines, as `extractDialogue`
does, recovers exactly these lines plus one trailing empty line). -/
structure Scene where
  scene_number : ℕ
  scene_type : String
  location : String
  time : String
  page_start : ℕ
  page_end : ℕ
  content_lines : List (List Char)
  dialogue_lines : List (List Char)
  action_lines : List (List Char)
  characters_present : List (List Char)
  dialogue_frac : ℚ
deriving DecidableEq

/-- The scene-header field regex
`/^(INT\.|EXT\.)\s+(.+?)\s+-\s+(DAY|NIGHT|DAWN|DUSK|CONTINUOUS)/i`:
the separator-and-time part after the lazy location group.  `\s+` before a
non-whitespace literal is deterministic (maximal munch), so no backtracking
is needed.  Returns the canonical (uppercased) time tag on success. -/
def sepTime (l : List Char) : Option (List Char) :=
  let ws := l.takeWhile jsSpace
  if ws.isEmpty then none
  else
    match l.dropWhile jsSpace with
    | '-' :: l2 =>
      let ws2 := l2.takeWhile jsSpace
      if ws2.isEmpty then none
      else
        let l3 := l2.dropWhile jsSpace
        if ciPrefix "DAY".toList l3 then some "DAY".toList
        else if ciPrefix "NIGHT".toList l3 then some "NIGHT".toList
        else if ciPrefix "DAWN".toList l3 then some "DAWN".toList
        else if ciPrefix "DUSK".toList l3 then some "DUSK".toList
        else if ciPrefix "CONTINUOUS".toList l3 then some "CONTINUOUS".toList
        else none
    | _ => none

/-- Lazy search for the shortest non-empty location group `(.+?)` such that
the remainder matches the separator-and-time part. -/
def findLocTime : List Char → List Char → Option (List Char × List Char)
  | _, [] => none
  | acc, c :: rest =>
    match sepTime rest with
    | some t => some (acc ++ [c], t)
    | none => findLocTime (acc ++ [c]) rest

/-- Full match of the header-field regex against the (already
header-tested) line: scene type, location and time.  `none` models a failed
`line.match(...)`. -/
def matchHeader (l : List Char) : Option (List Char × List Char × List Char) :=
  if ciPrefix "INT.".toList l || ciPrefix "EXT.".toList l then
    let ty := (l.take 4).map Char.toUpper
    let rest := l.drop 4
    if (rest.takeWhile jsSpace).isEmpty then none
    else
      match findLocTime [] (rest.dropWhile jsSpace) with
      | some (loc, t) => some (ty, loc, t)
      | none => none
  else none

/-- The defaulted header fields: on a parse failure the scene is still
created with type `INT.`, location `UNKNOWN`, time `DAY`. -/
def parseHeader (l : List Char) : String × String × String :=
  match matchHeader l with
  | some (ty, loc, t) => (String.mk ty, String.mk (jsTrim loc), String.mk t)
  | none => ("INT.", "UNKNOWN", "DAY")

/-- JS `Set.prototype.add` on an insertion-ordered set modelled as a
duplicate-free list. -/
def addUnique (l : List (List Char)) (x : List Char) : List (List Char) :=
  if l.contains x then l else l ++ [x]

/-- The scan state of `extractScenes`: emitted scenes, the open scene (if
any), the running scene counter and the page counter. -/
structure PState where
  scenes : List Scene
  current : Option Scene
  sceneNumber : ℕ
  pageCount : ℕ

/-- Close the open scene (stamping `page_end` with the current page
counter) and open a fresh scene at the header line. -/
def headerStep (line : List Char) (st : PState) : PState :=
  let closed :=
    match st.current with
    | some sc => st.scenes ++ [{ sc with page_end := st.pageCount }]
    | none => st.scenes
  let sn := st.sceneNumber + 1
  let f := parseHeader line
  { scenes := closed
    current := some
      { scene_number := sn
        scene_type := f.1
        location := f.2.1
        time := f.2.2
        page_start := st.pageCount
        page_end := 0
        content_lines := []
        dialogue_lines := []
        action_lines := []
        characters_present := []
        dialogue_frac := 0 }
    sceneNumber := sn
    pageCount := st.pageCount }

/-- The per-line body of the `if (currentScene)` block: append the line to
the scene content, track all-caps character names, and classify the line as
character cue, dialogue (when the previous raw line trims to a cue), or
action. -/
def classifyInto (sc : Scene) (line : List Char) (prev : Option (List Char)) : Scene :=
  let sc1 := { sc with content_lines := sc.content_lines ++ [line] }
  let sc2 :=
    if capsRe line && decide (line.length < 30) then
      { sc1 with characters_present := addUnique sc1.characters_present line }
    else sc1
  if capsRe line then sc2
  else if decide (0 < line.length) && (match prev with | some p => capsRe p | none => false) then
    { sc2 with dialogue_lines := sc2.dialogue_lines ++ [line] }
  else if decide (0 < line.length) then
    { sc2 with action_lines := sc2.action_lines ++ [line] }
  else sc2

/-- Apply `classifyInto` to the open scene, if any. -/
def contentStep (line : List Char) (prev : Option (List Char)) (st : PState) : PState :=
  match st.current with
  | none => st
  | some sc => { st with current := some (classifyInto sc line prev) }

/-- Page estimation: `if (i % 60 === 0) pageCount++` at the end of each
loop iteration (60 lines per page, fixed heuristic). -/
def pageTick (i : ℕ) (st : PState) : PState :=
  if i % 60 = 0 then { st with pageCount := st.pageCount + 1 } else st

/-- One iteration of the `extractScenes` loop at index `i`: `line` is the
raw split line, `prev` the trim of the previous raw line (`none` at the
first line, modelling the `i > 0` guard). -/
def stepLine (i : ℕ) (raw : List Char) (prev : Option (List Char)) (st : PState) : PState :=
  let line := jsTrim raw
  pageTick i (contentStep line prev (if isSceneHeader line then headerStep line st else st))

/-- The whole scan loop over the split lines. -/
def scanLines : List (List Char) → ℕ → Option (List Char) → PState → PState
  | [], _, _, st => st
  | raw :: rest, i, prev, st =>
    scanLines rest (i + 1) (some (jsTrim raw)) (stepLine i raw prev st)

/-- After the loop: emit the final open scene, then compute each scene's
dialogue ratio `d / (d + a + 1)` (the `+1` smoothing constant of the
source; the field is called `dialogue_ratio` there). -/
def finishScenes (st : PState) : List Scene :=
  let all :=
    match st.current with
    | some sc => st.scenes ++ [{ sc with page_end := st.pageCount }]
    | none => st.scenes
  all.map (fun s =>
    { s with dialogue_frac :=
        (s.dialogue_lines.length : ℚ) /
          ((s.dialogue_lines.length : ℚ) + (s.action_lines.length : ℚ) + 1) })

/-- `extractScenes(text)`: split the raw text into lines and run the scan. -/
def extractScenes (text : String) : List Scene :=
  finishScenes (scanLines (splitLines text.toList) 0 none ⟨[], none, 0, 0⟩)

/-- A Character registry entry (`extractCharacters`). -/
structure Character where
  name : List Char
  first_appearance : ℕ
  scenes_in : List ℕ
  total_lines : ℕ
deriving DecidableEq

/-- Stable insertion of `x` into a sorted prefix for a descending sort:
`x` jumps ahead only of elements with a strictly smaller key, so equal keys
keep their original order.  Models JS `Array.prototype.sort` (stable since
ES2019) with a `(a, b) => key(b) - key(a)` comparator. -/
def insertDescBy {α β : Type} [LinearOrder β] (key : α → β) (x : α) : List α → List α
  | [] => [x]
  | y :: ys => if key y < key x then x :: y :: ys else y :: insertDescBy key x ys

/-- Stable descending sort by key (insert the elements in source order). -/
def sortDescBy {α β : Type} [LinearOrder β] (key : α → β) (l : List α) : List α :=
  l.foldl (fun acc x => insertDescBy key x acc) []

/-- One registry update for a character name seen in a scene. -/
def registerChar (scene : Scene) (m : List Character) (n : List Char) : List Character :=
  let m1 :=
    if m.any (fun c => c.name == n) then m
    else m ++ [{ name := n, first_appearance := scene.page_start, scenes_in := [], total_lines := 0 }]
  m1.map (fun c =>
    if c.name == n then
      { c with scenes_in := c.scenes_in ++ [scene.scene_number]
               total_lines := c.total_lines + scene.dialogue_lines.length }
    else c)

/-- `extractCharacters(scenes)`: build the name-keyed registry in scan
order, then sort by total line count descending. -/
def extractCharacters (scenes : List Scene) : List Character :=
  sortDescBy (fun c => c.total_lines)
    (scenes.foldl (fun m scene => scene.characters_present.foldl (registerChar scene) m) [])

/-- The cue test `/!+/ || /\byell|shout|scream\b/i` heading the tone
heuristic (the alternation groups as `(\byell)|(shout)|(scream\b)`; the
`/i` flag is modelled by lowercasing, which leaves word boundaries
unchanged). -/
def toneIntenseCue (l : List Char) : Bool :=
  l.contains '!' ||
    (scanBoundedLeft "yell".toList false (l.map Char.toLower) ||
     hasSub "shout".toList (l.map Char.toLower) ||
     scanBoundedRight "scream".toList (l.map Char.toLower))

/-- `detectTone(text)`: first-match priority over the fixed label set. -/
def detectTone (l : List Char) : String :=
  let lower := l.map Char.toLower
  if toneIntenseCue l then "intense"
  else if l.contains '?' then "questioning"
  else if hasSub "...".toList l || l.contains '—' then "hesitant"
  else if hasSub "fuck".toList lower || hasSub "shit".toList lower || hasSub "damn".toList lower then "aggressive"
  else if hasSub "love".toList lower || hasSub "care".toList lower || hasSub "sweet".toList lower then "tender"
  else if hasSub "ha".toList lower || hasSub "heh".toList lower || hasSub "funny".toList lower then "humorous"
  else "neutral"

/-- One attributed DialogueLine record (`extractDialogue`). -/
structure DialogueLine where
  scene_number : ℕ
  character : List Char
  line_number : ℕ
  text : List Char
  length : ℕ
  tone : String
deriving DecidableEq

/-- JS `trimmed.split(' ').length`: number of single-space separators plus
one. -/
def wordCount (l : List Char) : ℕ :=
  (l.filter (fun c => c = ' ')).length + 1

/-- The dialogue-exclusion test `/^(INT\.|EXT\.|FADE|CUT)/` (case
sensitive, unlike the header test). -/
def isDirective (l : List Char) : Bool :=
  "INT.".toList.isPrefixOf l || "EXT.".toList.isPrefixOf l ||
    "FADE".toList.isPrefixOf l || "CUT".toList.isPrefixOf l

/-- The per-scene cue/speaker scan of `extractDialogue`, over the scene's
content lines (state: current speaker, running line number, output). -/
def dialogueScan (sn : ℕ) :
    List (List Char) → Option (List Char) → ℕ → List DialogueLine → List DialogueLine
  | [], _, _, acc => acc
  | raw :: rest, cur, ln, acc =>
    let trimmed := jsTrim raw
    if capsRe trimmed && decide (trimmed.length < 30) then
      dialogueScan sn rest (some trimmed) ln acc
    else
      match cur with
      | some ch =>
        if decide (0 < trimmed.length) && !isDirective trimmed then
          dialogueScan sn rest cur (ln + 1)
            (acc ++ [{ scene_number := sn, character := ch, line_number := ln + 1,
                       text := trimmed, length := wordCount trimmed,
                       tone := detectTone trimmed }])
        else dialogueScan sn rest cur ln acc
      | none => dialogueScan sn rest cur ln acc

/-- `extractDialogue(scenes, characters)`; the `characters` argument is
unused in the source body, and kept here for signature fidelity.  Each
scene's stored content is re-split per scene (splitting the accumulated
content string yields the stored lines plus a trailing empty line, which
the scan ignores as empty). -/
def extractDialogue (scenes : List Scene) (characters : List Character) : List DialogueLine :=
  let _ := characters
  scenes.foldl (fun acc scene =>
    dialogueScan scene.scene_number (scene.content_lines ++ [[]]) none 0 acc) []

/-- A beat template of the fixed catalog: name and absolute page window. -/
structure BeatTemplate where
  name : String
  lo : ℕ
  hi : ℕ
deriving DecidableEq

/-- The fixed, ordered seven-entry beat catalog ("industry standard beat
locations") of `identifyBeats`. -/
def beatTemplates : List BeatTemplate :=
  [⟨"Opening Image", 1, 3⟩,
   ⟨"Inciting Incident", 10, 15⟩,
   ⟨"End of Act 1", 25, 30⟩,
   ⟨"Midpoint", 55, 65⟩,
   ⟨"All Is Lost", 75, 85⟩,
   ⟨"Climax", 90, 100⟩,
   ⟨"Resolution", 105, 115⟩]

/-- A detected StoryBeat. -/
structure Beat where
  beat_type : String
  page_number : ℕ
  scene_number : ℕ
  location : String
  confidence : ℚ
deriving DecidableEq

/-- First-encountered maximum by dialogue-line count: the head of the
stable (ES2019) descending sort `matchingScenes.sort((a, b) =>
b.dialogue_lines.length - a.dialogue_lines.length)[0]` is the first scene
in scan order attaining the maximal count, which is what this computes. -/
def pickFirstMax : Scene → List Scene → Scene
  | best, [] => best
  | best, s :: rest =>
    if best.dialogue_lines.length < s.dialogue_lines.length then pickFirstMax s rest
    else pickFirstMax best rest

/-- `Math.ceil(fullText.split('\n').length / 60)`. -/
def estimatedTotalPages (text : String) : ℕ :=
  ((splitLines text.toList).length + 59) / 60

/-- The per-template body of the `identifyBeats` loop: scenes whose
`page_start` falls in the window; none → no beat; otherwise the
most-dialogue-heavy scene anchors the beat, with confidence 0.7 when the
window held more than one candidate and 0.5 otherwise. -/
def beatOf (scenes : List Scene) (tpl : BeatTemplate) : Option Beat :=
  let matching := scenes.filter (fun s => decide (tpl.lo ≤ s.page_start) && decide (s.page_start ≤ tpl.hi))
  match matching with
  | [] => none
  | m :: ms =>
    some { beat_type := tpl.name
           page_number := (pickFirstMax m ms).page_start
           scene_number := (pickFirstMax m ms).scene_number
           location := (pickFirstMax m ms).location
           confidence := if 1 < (m :: ms).length then (7/10 : ℚ) else (5/10 : ℚ) }

/-- `identifyBeats(scenes, fullText)`.  Note: `totalPages` is computed from
the full text exactly as in the source — and, exactly as in the source, it
is never used afterwards; the templates carry fixed absolute page windows. -/
def identifyBeats (scenes : List Scene) (fullText : String) : List Beat :=
  let totalPages := estimatedTotalPages fullText
  let _ := totalPages
  beatTemplates.filterMap (beatOf scenes)

/-- A corpus Script row, as read by the outline generator. -/
structure Script where
  id : ℕ
  title : String
  year : ℤ
  genre_tags : List String
  imdb_rating : ℚ
  page_count : Option ℚ
  box_office : Option ℚ
deriving DecidableEq

/-- A StoryBeat row `(script_id, beat_type, page_number)` as read by
`getBeatTiming`. -/
structure BeatRow where
  script_id : ℕ
  beat_type : String
  page_number : ℤ
deriving DecidableEq

/-- JS `Math.round`: round half toward positive infinity. -/
def jsRound (q : ℚ) : ℤ := ⌊q + 1 / 2⌋

/-- `findSimilarScripts(genre)`: corpus scripts tagged with the genre and
rated at least 7.0, ordered by rating descending, top 10.  The stored
corpus stands in for the `scripts` table. -/
def findSimilarScripts (genre : String) (corpus : List Script) : List Script :=
  (sortDescBy (fun s => s.imdb_rating)
    (corpus.filter (fun s => s.genre_tags.contains genre && decide ((7 : ℚ) ≤ s.imdb_rating)))).take 10

/-- The five milestone page numbers of an outline. -/
structure OutlineMilestones where
  totalPages : ℤ
  act1End : ℤ
  act2aMidpoint : ℤ
  act2bEnd : ℤ
  act3End : ℤ
deriving DecidableEq

/-- `s.page_count || 110` (JS falsy test: absent or zero defaults). -/
def pageCountOr110 (s : Script) : ℚ :=
  match s.page_count with
  | some p => if p = 0 then 110 else p
  | none => 110

/-- `calculateOptimalStructure(similarScripts)`: the industry-standard
default when no comparables exist, else milestones at fixed fractions of
the comparables' average page count. -/
def calculateOptimalStructure (similarScripts : List Script) : OutlineMilestones :=
  if similarScripts.isEmpty then
    { totalPages := 110, act1End := 30, act2aMidpoint := 60, act2bEnd := 90, act3End := 110 }
  else
    let avgPages : ℚ :=
      (similarScripts.foldl (fun sum s => sum + pageCountOr110 s) 0) / similarScripts.length
    { totalPages := jsRound avgPages
      act1End := jsRound (avgPages * (25/100 : ℚ))
      act2aMidpoint := jsRound (avgPages * (50/100 : ℚ))
      act2bEnd := jsRound (avgPages * (75/100 : ℚ))
      act3End := jsRound avgPages }

/-- `getDefaultBeats()`: the fixed default beat-page table. -/
def getDefaultBeats : List (String × ℤ) :=
  [("Opening Image", 1), ("Inciting Incident", 12), ("End of Act 1", 25),
   ("Midpoint", 60), ("All Is Lost", 75), ("Climax", 95), ("Resolution", 110)]

/-- First-occurrence deduplication (JS object keys are in insertion
order). -/
def dedupFirstAux (seen : List String) : List String → List String
  | [] => []
  | x :: xs => if seen.contains x then dedupFirstAux seen xs else x :: dedupFirstAux (x :: seen) xs

/-- `getBeatTiming(similarScripts)`: averaged actual beat pages of the
comparables' StoryBeat rows, else the default table.  The stored rows stand
in for the `story_beats` table. -/
def getBeatTiming (similarScripts : List Script) (rows : List BeatRow) : List (String × ℤ) :=
  if similarScripts.isEmpty then getDefaultBeats
  else
    let ids := similarScripts.map (fun s => s.id)
    let found := rows.filter (fun r => ids.contains r.script_id)
    if found.isEmpty then getDefaultBeats
    else
      (dedupFirstAux [] (found.map (fun r => r.beat_type))).map (fun t =>
        let pages := (found.filter (fun r => r.beat_type == t)).map (fun r => (r.page_number : ℚ))
        (t, jsRound ((pages.foldl (fun sum p => sum + p) 0) / pages.length)))

/-- `beats['X'] || default`: map lookup with JS falsy defaulting (an absent
key or a zero page falls back to the default). -/
def lookupOr (m : List (String × ℤ)) (k : String) (d : ℤ) : ℤ :=
  match m.find? (fun p => p.1 == k) with
  | some p => if p.2 = 0 then d else p.2
  | none => d

/-- One comparable listed in a success prediction. -/
structure ComparableRef where
  title : String
  rating : ℚ
  year : ℤ
deriving DecidableEq

/-- A success prediction (`comparables` is present only when comparable
scripts exist). -/
structure Prediction where
  probability : ℚ
  confidence : String
  reasoning : String
  comparables : Option (List ComparableRef)
deriving DecidableEq

/-- The comparables' average rating (the local `avgRating`). -/
def comparablesAvgRating (similarScripts : List Script) : ℚ :=
  (similarScripts.foldl (fun sum s => sum + s.imdb_rating) 0) / similarScripts.length

/-- The unrounded success probability `min(0.95, avgRating / 10)` (the
local `probability`, before the two-decimal report rounding). -/
def predictSuccessRaw (similarScripts : List Script) : ℚ :=
  min (95/100 : ℚ) (comparablesAvgRating similarScripts / 10)

/-- JS `Number.prototype.toFixed(1)` for the nonnegative rationals this
code puts through it. -/
def toFixed1 (q : ℚ) : String :=
  let n := jsRound (q * 10)
  toString (n / 10) ++ "." ++ toString (n % 10)

/-- `predictSuccess(similarScripts, genre)`: the no-comparables default, or
the rating-mean heuristic; the reported probability is rounded to two
decimals while the confidence tier is decided on the unrounded value. -/
def predictSuccess (similarScripts : List Script) (genre : String) : Prediction :=
  if similarScripts.isEmpty then
    { probability := (65/100 : ℚ)
      confidence := "medium"
      reasoning := "Based on general patterns (no similar scripts in database)"
      comparables := none }
  else
    let avgRating := comparablesAvgRating similarScripts
    let probability := predictSuccessRaw similarScripts
    { probability := (jsRound (probability * 100) : ℚ) / 100
      confidence :=
        if probability > (75/100 : ℚ) then "high"
        else if probability > (65/100 : ℚ) then "medium"
        else "low"
      reasoning := "Based on " ++ toString similarScripts.length ++ " similar successful "
          ++ genre ++ " scripts (avg rating: " ++ toFixed1 avgRating ++ ")"
      comparables := some ((similarScripts.take 3).map (fun s =>
        { title := s.title, rating := s.imdb_rating, year := s.year })) }

/-- Text recommendations attached to an outline. -/
structure Recommendations where
  targetLength : String
  pacing : String
  characters : String
  dialogue : String
  budget : Option String
deriving DecidableEq

/-- `s.box_office` truthiness (`filter(s => s.box_office)`). -/
def boxOfficeTruthy (s : Script) : Bool :=
  match s.box_office with
  | some v => !(v = 0)
  | none => false

/-- `generateRecommendations(similarScripts, structure)`.  When no
comparable carries box-office data the JS average is `0 / 0 = NaN`, and
`NaN > 0` is false, so no budget recommendation is attached; the rational
model's `0 / 0 = 0` yields the same outcome. -/
def generateRecommendations (similarScripts : List Script) (ms : OutlineMilestones) :
    Recommendations :=
  { targetLength := toString ms.totalPages ++ " pages (optimal for this genre)"
    pacing := "Follow the beat timing closely for maximum impact"
    characters := "8-12 distinct characters (protagonist + supporting cast)"
    dialogue := "Keep dialogue concise: 6-9 words per line average"
    budget :=
      if similarScripts.isEmpty then none
      else
        let withBO := similarScripts.filter boxOfficeTruthy
        let avgBoxOffice : ℚ :=
          (withBO.foldl (fun sum s => sum + (s.box_office.getD 0)) 0) / withBO.length
        if avgBoxOffice > 0 then
          some (if avgBoxOffice > 100000000 then "$40-80M (theatrical tentpole)"
                else if avgBoxOffice > 50000000 then "$20-40M (mid-budget theatrical)"
                else "$5-20M (indie/streaming)")
        else none }

/-- A beat's page reference inside an outline act: a single page number or
a page-span string (the JS object mixes both shapes). -/
inductive PageRef where
  | pg (n : ℤ)
  | span (s : String)
deriving DecidableEq

/-- One templated beat of an outline act. -/
structure ActBeat where
  name : String
  page : PageRef
  description : String
  «example» : String
deriving DecidableEq

/-- One act of an outline. -/
structure OutlineAct where
  title : String
  pages : String
  beats : List ActBeat
deriving DecidableEq

/-- A generated outline (the return value of `generateOutline`). -/
structure Outline where
  premise : String
  genre : String
  «structure» : OutlineMilestones
  act1 : OutlineAct
  act2a : OutlineAct
  act2b : OutlineAct
  act3 : OutlineAct
  prediction : Prediction
  recommendations : Recommendations
deriving DecidableEq

/-- `generateOutline(premise, genre, targetLength = null)`.  The function
performs no validation of its inputs: it unconditionally builds and
returns an outline.  `corpus` and `beatRows` stand for the `scripts` and
`story_beats` tables the source reads through its database client; the
`targetLength` override is applied only when truthy (`if (targetLength)`),
so `none` — and a zero — leave the computed structure in place. -/
def generateOutline (premise : String) (genre : String) (targetLength : Option ℕ)
    (corpus : List Script) (beatRows : List BeatRow) : Outline :=
  let similarScripts := findSimilarScripts genre corpus
  let structure0 := calculateOptimalStructure similarScripts
  let beats := getBeatTiming similarScripts beatRows
  let ms : OutlineMilestones :=
    match targetLength with
    | some t =>
      if t ≠ 0 then
        { totalPages := (t : ℤ)
          act1End := jsRound ((t : ℚ) * (25/100 : ℚ))
          act2aMidpoint := jsRound ((t : ℚ) * (50/100 : ℚ))
          act2bEnd := jsRound ((t : ℚ) * (75/100 : ℚ))
          act3End := (t : ℤ) }
      else structure0
    | none => structure0
  { premise := premise
    genre := genre
    «structure» := ms
    act1 :=
      { title := "ACT 1: SETUP"
        pages := "1-" ++ toString ms.act1End
        beats :=
          [{ name := "Opening Image"
             page := PageRef.pg (lookupOr beats "Opening Image" 1)
             description := "Establish the protagonist's ordinary world. Show their life before the journey begins."
             «example» := "Based on successful " ++ genre ++ " scripts: Introduce protagonist in their normal routine, hint at their flaw/need." },
           { name := "Theme Stated"
             page := PageRef.pg 5
             description := "Someone states the theme/lesson of the story (often subtly)."
             «example» := "A conversation or observation that hints at what the protagonist will learn." },
           { name := "Setup"
             page := PageRef.span "1-10"
             description := "Establish all the \"pieces\" - characters, relationships, world rules."
             «example» := "Introduce supporting characters, establish protagonist's wants vs needs." },
           { name := "Inciting Incident"
             page := PageRef.pg (lookupOr beats "Inciting Incident" 12)
             description := "The event that disrupts the ordinary world and starts the story."
             «example» := "In your story: The catalyst that forces the protagonist into action related to: \"" ++ premise ++ "\"" },
           { name := "Debate"
             page := PageRef.span "12-25"
             description := "Protagonist debates whether to take the journey. Should they? Can they?"
             «example» := "Show internal/external resistance. Raise the stakes. Make it personal." },
           { name := "Break into Two"
             page := PageRef.pg (lookupOr beats "End of Act 1" ms.act1End)
             description := "Protagonist makes the choice to enter Act 2. Crosses the threshold."
             «example» := "Point of no return. They commit to the goal. Enter the \"upside-down world\"." }] }
    act2a :=
      { title := "ACT 2A: CONFRONTATION"
        pages := toString (ms.act1End + 1) ++ "-" ++ toString ms.act2aMidpoint
        beats :=
          [{ name := "B Story Begins"
             page := PageRef.pg (ms.act1End + 5)
             description := "Introduce the relationship/subplot that will help protagonist learn the theme."
             «example» := "New ally, mentor, or love interest who represents the \"need\" vs \"want\"." },
           { name := "Fun and Games"
             page := PageRef.span (toString (ms.act1End + 10) ++ "-" ++ toString (ms.act2aMidpoint - 5))
             description := "The \"promise of the premise\". The fun part. What the poster advertises."
             «example» := "Deliver on the " ++ genre ++ " genre expectations. Show protagonist tackling the problem with initial confidence." },
           { name := "Midpoint"
             page := PageRef.pg (lookupOr beats "Midpoint" ms.act2aMidpoint)
             description := "False victory or false defeat. Stakes are raised. Time clock appears/intensifies."
             «example» := "Either: protagonist gets what they want (but not what they need), OR everything falls apart. Either way - everything changes." }] }
    act2b :=
      { title := "ACT 2B: COMPLICATIONS"
        pages := toString (ms.act2aMidpoint + 1) ++ "-" ++ toString ms.act2bEnd
        beats :=
          [{ name := "Bad Guys Close In"
             page := PageRef.span (toString (ms.act2aMidpoint + 5) ++ "-" ++ toString (ms.act2bEnd - 15))
             description := "Internal and external forces close in. Things get worse."
             «example» := "If Midpoint was a victory: enemies regroup and hit harder. If defeat: protagonist struggles to recover. Pressure mounts." },
           { name := "All Is Lost"
             page := PageRef.pg (lookupOr beats "All Is Lost" (ms.act2bEnd - 15))
             description := "Lowest point. The \"whiff of death\" - something or someone dies (literally or metaphorically)."
             «example» := "False defeat. Mentor dies, relationship ends, hope is lost. Opposite of Midpoint." },
           { name := "Dark Night of the Soul"
             page := PageRef.span (toString (ms.act2bEnd - 10) ++ "-" ++ toString (ms.act2bEnd - 5))
             description := "Protagonist wallows in defeat. Seems impossible to win."
             «example» := "Emotional low. Protagonist reflects on failures. Doubt reaches peak." },
           { name := "Break into Three"
             page := PageRef.pg ms.act2bEnd
             description := "Thanks to B Story, protagonist finds the solution. Synthesis of A and B stories."
             «example» := "Eureka moment. Protagonist realizes what they need (not just want). Finds clarity and resolve." }] }
    act3 :=
      { title := "ACT 3: RESOLUTION"
        pages := toString (ms.act2bEnd + 1) ++ "-" ++ toString ms.act3End
        beats :=
          [{ name := "Finale"
             page := PageRef.span (toString (ms.act2bEnd + 1) ++ "-" ++ toString (ms.act3End - 5))
             description := "Protagonist executes the new plan. Synthesis of want + need."
             «example» := "The big " ++ genre ++ " climax. Protagonist uses everything they've learned. Faces the antagonist/obstacle with new understanding." },
           { name := "Climax"
             page := PageRef.pg (lookupOr beats "Climax" (ms.act3End - 10))
             description := "The decisive moment. A vs B. Will protagonist succeed?"
             «example» := "The ultimate confrontation. Tension peaks. All or nothing." },
           { name := "Final Image"
             page := PageRef.pg (lookupOr beats "Resolution" ms.act3End)
             description := "Mirror of Opening Image. Shows how protagonist has changed."
             «example» := "The \"new world\". Protagonist in their changed state. Theme proven. Opposite of Opening Image." }] }
    prediction := predictSuccess similarScripts genre
    recommendations := generateRecommendations similarScripts ms }

/-- Modelled from the spec (for refutation of the scaled-window reading):
"each with a designated page-range window (e.g., Midpoint: 55-65% of total
length, expressed as absolute page numbers computed from total estimated
pages)" — membership of a page in a window given as percentages of the
total estimated page count. -/
def specScaledWindowMem (loPct hiPct total page : ℕ) : Prop :=
  loPct * total ≤ 100 * page ∧ 100 * page ≤ hiPct * total

/-- Claim C1 (counterexample): called with an empty premise (resp. an empty
genre), `generateOutline` does not reject — it returns a complete outline:
the premise/genre are echoed verbatim and the default structure and
prediction are produced. -/
theorem generateOutline_empty_inputs_return_outline :
    (generateOutline "" "Action" Option.none [] []).premise = "" ∧
    (generateOutline "" "Action" Option.none [] []).«structure».totalPages = 110 ∧
    (generateOutline "" "Action" Option.none [] []).prediction.confidence = "medium" ∧
    (generateOutline "valid premise" "" Option.none [] []).genre = "" ∧
    (generateOutline "valid premise" "" Option.none [] []).«structure».totalPages = 110 := by
  refine ⟨rfl, by decide, by decide, rfl, by decide⟩

/-- Claim C1 (amended): the core `generateOutline` performs no validation
of premise or genre whatsoever: for every input — the empty strings
included — it returns an outline echoing the given premise and genre.  The
missing-field validation the spec demands lives only in the HTTP route
layer, outside this function. -/
theorem generateOutline_no_validation :
    ∀ (premise genre : String) (targetLength : Option ℕ)
      (corpus : List Script) (beatRows : List BeatRow),
      (generateOutline premise genre targetLength corpus beatRows).premise = premise ∧
      (generateOutline premise genre targetLength corpus beatRows).genre = genre :=
  fun _ _ _ _ _ => ⟨rfl, rfl⟩

/-- Claim C2 (counterexample): for a one-line script (estimated total page
count 1), `identifyBeats` still assigns the Midpoint beat to a scene whose
`page_start` is 60 — page 60 is nowhere near 55-65% of a 1-page script, so
the window was not computed from the total estimated page count. -/
theorem identifyBeats_fixed_window_counterexample :
    identifyBeats
        [{ scene_number := 1, scene_type := "INT.", location := "LAB", time := "DAY",
           page_start := 60, page_end := 61, content_lines := [], dialogue_lines := [],
           action_lines := [], characters_present := [], dialogue_frac := 0 }] "x"
      = [{ beat_type := "Midpoint", page_number := 60, scene_number := 1,
           location := "LAB", confidence := (5/10 : ℚ) }] ∧
    estimatedTotalPages "x" = 1 ∧
    ¬ specScaledWindowMem 55 65 (estimatedTotalPages "x") 60 := by
  refine ⟨rfl, by decide, ?_⟩
  unfold specScaledWindowMem
  decide

/-- Claim C2 (amended): the seven beat windows are fixed absolute page
ranges ("industry standard beat locations" in the source); the total
estimated page count is computed but never used, so the output of
`identifyBeats` is entirely independent of the full text — the windows do
not scale with the script's length. -/
theorem identifyBeats_independent_of_total_pages :
    ∀ (scenes : List Scene) (text1 text2 : String),
      identifyBeats scenes text1 = identifyBeats scenes text2 :=
  fun _ _ _ => rfl

/-- Claim C7: `detectTone` always lands in the closed seven-label set, and
cues resolve by first-match priority — in particular a line containing an
exclamation mark classifies as "intense" whatever else it contains (so a
line with both "!" and "?" is "intense", never "questioning"), and
"questioning" is reached exactly when the intense cue fails and a question
mark is present. -/
theorem detectTone_priority :
    ∀ l : List Char,
      detectTone l ∈ ["intense", "questioning", "hesitant", "aggressive",
                      "tender", "humorous", "neutral"] ∧
      (l.contains '!' = true → l.contains '?' = true → detectTone l = "intense") ∧
      (toneIntenseCue l = false → l.contains '?' = true → detectTone l = "questioning") := by
  intro l
  refine ⟨?_, ?_, ?_⟩
  · unfold detectTone
    dsimp only
    split_ifs <;> simp
  · intro h1 _
    have hc : toneIntenseCue l = true := by
      unfold toneIntenseCue
      rw [h1]
      rfl
    unfold detectTone
    rw [hc]
    rfl
  · intro h0 h2
    unfold detectTone
    rw [h0, h2]
    rfl

/-- Claim C7 (witness): concrete lines — one with both marks, one with
only a question mark. -/
theorem detectTone_priority_witness :
    detectTone "You did what?!".toList = "intense" ∧
    detectTone "Why me?".toList = "questioning" :=
  ⟨(detectTone_priority "You did what?!".toList).2.1 (by decide) (by decide),
   (detectTone_priority "Why me?".toList).2.2 (by decide) (by decide)⟩

/-- Claim C10: on a concrete script (a cue followed by a two-line speech),
the number of DialogueLine records produced by `extractDialogue` (2: every
non-empty post-cue line is attributed until the next cue) differs from the
scene-level `dialogue_lines` total produced by `extractScenes` (1: only
the line immediately after the cue counts), so the parser's two dialogue
counts disagree in general. -/
theorem dialogue_count_methods_disagree :
    (extractDialogue
        (extractScenes "INT. HOUSE - DAY\nJOHN\nHello there.\nHe walks away slowly.")
        (extractCharacters
          (extractScenes "INT. HOUSE - DAY\nJOHN\nHello there.\nHe walks away slowly."))).length
      ≠
    ((extractScenes "INT. HOUSE - DAY\nJOHN\nHello there.\nHe walks away slowly.").map
        (fun s => s.dialogue_lines.length)).sum := by
  decide

/-- Claim C4 (counterexample): for comparables rated 8.0, 7.5 and 7.4, the
unrounded probability `min(0.95, mean/10)` equals 229/300 = 0.7633..., which
is strictly below 0.764, and the reported (two-decimal-rounded) probability
is 0.76 — so the claimed value "0.764..." matches neither. -/
theorem predictSuccess_mean_rating_counterexample :
    predictSuccessRaw
        [{ id := 1, title := "A", year := 2000, genre_tags := ["Action"], imdb_rating := 8, page_count := Option.none, box_office := Option.none },
         { id := 2, title := "B", year := 2001, genre_tags := ["Action"], imdb_rating := 15/2, page_count := Option.none, box_office := Option.none },
         { id := 3, title := "C", year := 2002, genre_tags := ["Action"], imdb_rating := 37/5, page_count := Option.none, box_office := Option.none }] = 229/300 ∧
    ¬ ((191 : ℚ)/250 ≤ 229/300) ∧
    (predictSuccess
        [{ id := 1, title := "A", year := 2000, genre_tags := ["Action"], imdb_rating := 8, page_count := Option.none, box_office := Option.none },
         { id := 2, title := "B", year := 2001, genre_tags := ["Action"], imdb_rating := 15/2, page_count := Option.none, box_office := Option.none },
         { id := 3, title := "C", year := 2002, genre_tags := ["Action"], imdb_rating := 37/5, page_count := Option.none, box_office := Option.none }] "Action").probability = 19/25 ∧
    ¬ ((191 : ℚ)/250 ≤ 19/25) := by
  refine ⟨?_, by norm_num, ?_, by norm_num⟩
  · simp [predictSuccessRaw, comparablesAvgRating, List.foldl]
    norm_num
  · simp [predictSuccess, predictSuccessRaw, comparablesAvgRating, List.foldl, jsRound]
    norm_num [jsRound]

/-- Claim C4 (amended): for any three comparables rated 8.0, 7.5 and 7.4,
the unrounded probability is `min(0.95, mean/10) = 229/300 = 0.7633...`;
the prediction reports it rounded to two decimals as 0.76, and the
confidence is "high" because the unrounded value exceeds the 0.75
threshold. -/
theorem predictSuccess_comparables_high :
    ∀ (s1 s2 s3 : Script) (genre : String),
      s1.imdb_rating = 8 → s2.imdb_rating = 15/2 → s3.imdb_rating = 37/5 →
      predictSuccessRaw [s1, s2, s3] = 229/300 ∧
      (3 : ℚ)/4 < 229/300 ∧
      (predictSuccess [s1, s2, s3] genre).probability = 19/25 ∧
      (predictSuccess [s1, s2, s3] genre).confidence = "high" := by
  intro s1 s2 s3 genre h1 h2 h3
  have havg : comparablesAvgRating [s1, s2, s3] = 229/30 := by
    simp [comparablesAvgRating, List.foldl, h1, h2, h3]
    norm_num
  have hraw : predictSuccessRaw [s1, s2, s3] = 229/300 := by
    rw [predictSuccessRaw, havg]
    norm_num
  refine ⟨hraw, by norm_num, ?_, ?_⟩
  · simp only [predictSuccess, List.isEmpty_cons, if_neg]
    rw [hraw]
    norm_num [jsRound]
  · simp only [predictSuccess, List.isEmpty_cons, if_neg]
    rw [hraw]
    norm_num

/-- Claim C4 (witness): the amended theorem instantiated at three concrete
comparable scripts. -/
theorem predictSuccess_comparables_high_witness :
    predictSuccessRaw
        [{ id := 1, title := "A", year := 2000, genre_tags := ["Action"], imdb_rating := 8, page_count := Option.none, box_office := Option.none },
         { id := 2, title := "B", year := 2001, genre_tags := ["Action"], imdb_rating := 15/2, page_count := Option.none, box_office := Option.none },
         { id := 3, title := "C", year := 2002, genre_tags := ["Action"], imdb_rating := 37/5, page_count := Option.none, box_office := Option.none }] = 229/300 ∧
    (3 : ℚ)/4 < 229/300 ∧
    (predictSuccess
        [{ id := 1, title := "A", year := 2000, genre_tags := ["Action"], imdb_rating := 8, page_count := Option.none, box_office := Option.none },
         { id := 2, title := "B", year := 2001, genre_tags := ["Action"], imdb_rating := 15/2, page_count := Option.none, box_office := Option.none },
         { id := 3, title := "C", year := 2002, genre_tags := ["Action"], imdb_rating := 37/5, page_count := Option.none, box_office := Option.none }] "Action").probability = 19/25 ∧
    (predictSuccess
        [{ id := 1, title := "A", year := 2000, genre_tags := ["Action"], imdb_rating := 8, page_count := Option.none, box_office := Option.none },
         { id := 2, title := "B", year := 2001, genre_tags := ["Action"], imdb_rating := 15/2, page_count := Option.none, box_office := Option.none },
         { id := 3, title := "C", year := 2002, genre_tags := ["Action"], imdb_rating := 37/5, page_count := Option.none, box_office := Option.none }] "Action").confidence = "high" :=
  predictSuccess_comparables_high _ _ _ "Action" rfl rfl rfl

/-- Claim C5: when the genre has no comparables, `generateOutline` returns
a degraded-but-valid outline: `totalPages` is 110 — or the caller-supplied
(positive) target length — and the prediction is probability 0.65,
confidence "medium", with the reasoning string noting the absence of
comparable data. -/
theorem generateOutline_no_comparables_defaults :
    ∀ (premise genre : String) (t : Option ℕ) (corpus : List Script) (rows : List BeatRow),
      findSimilarScripts genre corpus = [] →
      (t = Option.none ∨ ∃ n : ℕ, t = Option.some n ∧ 0 < n) →
      (generateOutline premise genre t corpus rows).«structure».totalPages
          = (match t with | Option.some n => (n : ℤ) | Option.none => 110) ∧
      (generateOutline premise genre t corpus rows).prediction
          = { probability := (65/100 : ℚ), confidence := "medium",
              reasoning := "Based on general patterns (no similar scripts in database)",
              comparables := Option.none } := by
  intro premise genre t corpus rows hsim ht
  constructor
  · rcases ht with h | ⟨n, hn, hpos⟩
    · subst h
      simp [generateOutline, hsim, calculateOptimalStructure]
    · subst hn
      simp [generateOutline, hsim, hpos.ne']
  · simp [generateOutline, hsim, predictSuccess]

/-- Claim C5 (witness): an empty corpus with an explicit target length of
120 pages. -/
theorem generateOutline_no_comparables_defaults_witness :
    (generateOutline "p" "SciFi" (Option.some 120) [] []).«structure».totalPages = 120 ∧
    (generateOutline "p" "SciFi" (Option.some 120) [] []).prediction
        = { probability := (65/100 : ℚ), confidence := "medium",
            reasoning := "Based on general patterns (no similar scripts in database)",
            comparables := Option.none } :=
  generateOutline_no_comparables_defaults "p" "SciFi" (Option.some 120) [] [] rfl
    (Or.inr ⟨120, rfl, by decide⟩)

/-- 1 when a scene is open in the scan state, else 0 (proof apparatus for
counting emitted scenes). -/
def openCount (st : PState) : ℕ :=
  match st.current with
  | some _ => 1
  | none => 0

theorem openCount_headerStep (line : List Char) (st : PState) :
    openCount (headerStep line st) = 1 := rfl

theorem scenes_length_headerStep (line : List Char) (st : PState) :
    (headerStep line st).scenes.length = st.scenes.length + openCount st := by
  unfold headerStep openCount
  cases st.current <;> simp

theorem scenes_contentStep (line : List Char) (prev : Option (List Char)) (st : PState) :
    (contentStep line prev st).scenes = st.scenes := by
  unfold contentStep
  cases h : st.current <;> simp [h]

theorem openCount_contentStep (line : List Char) (prev : Option (List Char)) (st : PState) :
    openCount (contentStep line prev st) = openCount st := by
  unfold contentStep openCount
  cases h : st.current <;> simp [h]

theorem scenes_pageTick (i : ℕ) (st : PState) : (pageTick i st).scenes = st.scenes := by
  unfold pageTick
  split <;> rfl

theorem openCount_pageTick (i : ℕ) (st : PState) : openCount (pageTick i st) = openCount st := by
  unfold pageTick
  split <;> rfl

/-- Each scan step changes `emitted + open` by exactly one per scene
header: a header closes the open scene (if any) into the output and opens a
new one; every other line leaves both untouched. -/
theorem stepLine_count (i : ℕ) (raw : List Char) (prev : Option (List Char)) (st : PState) :
    (stepLine i raw prev st).scenes.length + openCount (stepLine i raw prev st)
      = st.scenes.length + openCount st + (if isSceneHeader (jsTrim raw) then 1 else 0) := by
  unfold stepLine
  rw [scenes_pageTick, openCount_pageTick, scenes_contentStep, openCount_contentStep]
  by_cases h : isSceneHeader (jsTrim raw) = true
  · simp [h, scenes_length_headerStep, openCount_headerStep]
  · simp [h]

theorem scanLines_count :
    ∀ (ls : List (List Char)) (i : ℕ) (prev : Option (List Char)) (st : PState),
      (scanLines ls i prev st).scenes.length + openCount (scanLines ls i prev st)
        = st.scenes.length + openCount st
            + (ls.filter (fun l => isSceneHeader (jsTrim l))).length := by
  intro ls
  induction ls with
  | nil => intro i prev st; simp [scanLines]
  | cons r rest ih =>
    intro i prev st
    rw [scanLines, ih, stepLine_count, List.filter]
    by_cases h : isSceneHeader (jsTrim r) = true
    · simp [h]
      omega
    · simp [h]

theorem finishScenes_length (st : PState) :
    (finishScenes st).length = st.scenes.length + openCount st := by
  unfold finishScenes openCount
  cases st.current <;> simp

/-- Claim C3: for every raw text, `extractScenes` emits exactly one Scene
per input line whose trimmed form matches the scene-header pattern
(`INT.`/`EXT.` prefix, case-insensitive) — each header opens a scene and
every opened scene is eventually emitted, the last one at end of input. -/
theorem extractScenes_count_eq_headers :
    ∀ text : String,
      (extractScenes text).length
        = ((splitLines text.toList).filter (fun l => isSceneHeader (jsTrim l))).length := by
  intro text
  unfold extractScenes
  rw [finishScenes_length, scanLines_count]
  simp [openCount]

/-- The page invariant carried through the scan: every emitted scene has
`page_start ≤ page_end`, and the open scene's `page_start` is bounded by
the running page counter. -/
def pagesOk (st : PState) : Prop :=
  (∀ s ∈ st.scenes, s.page_start ≤ s.page_end) ∧
  ∀ sc, st.current = some sc → sc.page_start ≤ st.pageCount

theorem classifyInto_page_start (sc : Scene) (line : List Char) (prev : Option (List Char)) :
    (classifyInto sc line prev).page_start = sc.page_start := by
  unfold classifyInto
  dsimp only
  split_ifs <;> rfl

theorem pagesOk_headerStep (line : List Char) (st : PState) (h : pagesOk st) :
    pagesOk (headerStep line st) := by
  obtain ⟨h1, h2⟩ := h
  unfold headerStep
  constructor
  · intro s hs
    dsimp only at hs
    cases hc : st.current with
    | none => rw [hc] at hs; exact h1 s hs
    | some sc =>
      rw [hc] at hs
      rcases List.mem_append.mp hs with hs' | hs'
      · exact h1 s hs'
      · rw [List.mem_singleton.mp hs']
        exact h2 sc hc
  · intro sc hsc
    dsimp only at hsc
    rw [Option.some_inj] at hsc
    rw [← hsc]

theorem pagesOk_contentStep (line : List Char) (prev : Option (List Char)) (st : PState)
    (h : pagesOk st) : pagesOk (contentStep line prev st) := by
  obtain ⟨h1, h2⟩ := h
  unfold contentStep
  cases hc : st.current with
  | none => exact ⟨h1, h2⟩
  | some sc =>
    refine ⟨h1, ?_⟩
    intro sc' hsc'
    rw [Option.some_inj] at hsc'
    rw [← hsc', classifyInto_page_start]
    exact h2 sc hc

theorem pagesOk_pageTick (i : ℕ) (st : PState) (h : pagesOk st) : pagesOk (pageTick i st) := by
  unfold pageTick
  split
  · exact ⟨h.1, fun sc hsc => Nat.le_trans (h.2 sc hsc) (Nat.le_succ _)⟩
  · exact h

theorem pagesOk_stepLine (i : ℕ) (raw : List Char) (prev : Option (List Char)) (st : PState)
    (h : pagesOk st) : pagesOk (stepLine i raw prev st) := by
  unfold stepLine
  apply pagesOk_pageTick
  apply pagesOk_contentStep
  split
  · exact pagesOk_headerStep _ _ h
  · exact h

theorem pagesOk_scanLines :
    ∀ (ls : List (List Char)) (i : ℕ) (prev : Option (List Char)) (st : PState),
      pagesOk st → pagesOk (scanLines ls i prev st) := by
  intro ls
  induction ls with
  | nil => intro i prev st h; exact h
  | cons r rest ih =>
    intro i prev st h
    exact ih _ _ _ (pagesOk_stepLine i r prev st h)

theorem mem_finishScenes_pages (st : PState) (h : pagesOk st) :
    ∀ s ∈ finishScenes st, s.page_start ≤ s.page_end := by
  intro s hs
  unfold finishScenes at hs
  rw [List.mem_map] at hs
  obtain ⟨s', hs', rfl⟩ := hs
  show s'.page_start ≤ s'.page_end
  cases hc : st.current with
  | none => rw [hc] at hs'; exact h.1 s' hs'
  | some sc =>
    rw [hc] at hs'
    rcases List.mem_append.mp hs' with h' | h'
    · exact h.1 s' h'
    · rw [List.mem_singleton.mp h']
      exact h.2 sc hc

/-- Claim C9: every Scene emitted by `extractScenes` satisfies
`page_start ≤ page_end` — the page counter only ever increments between a
scene's opening and its closing. -/
theorem extractScenes_page_start_le_page_end :
    ∀ (text : String), ∀ s ∈ extractScenes text, s.page_start ≤ s.page_end := by
  intro text s hs
  unfold extractScenes at hs
  refine mem_finishScenes_pages _ ?_ s hs
  refine pagesOk_scanLines _ _ _ _ ?_
  constructor
  · intro s hs
    cases hs
  · intro sc hsc
    cases hsc

/-- Claim C9 (witness): the single scene of a one-header script. -/
theorem extractScenes_page_start_le_page_end_witness :
    (Scene.page_start
        { scene_number := 1, scene_type := "EXT.", location := "B", time := "NIGHT",
          page_start := 0, page_end := 1,
          content_lines := ["EXT. B - NIGHT".toList],
          dialogue_lines := [], action_lines := ["EXT. B - NIGHT".toList],
          characters_present := [],
          dialogue_frac := ((0 : ℕ) : ℚ) / (((0 : ℕ) : ℚ) + ((1 : ℕ) : ℚ) + 1) })
      ≤ (Scene.page_end
        { scene_number := 1, scene_type := "EXT.", location := "B", time := "NIGHT",
          page_start := 0, page_end := 1,
          content_lines := ["EXT. B - NIGHT".toList],
          dialogue_lines := [], action_lines := ["EXT. B - NIGHT".toList],
          characters_present := [],
          dialogue_frac := ((0 : ℕ) : ℚ) / (((0 : ℕ) : ℚ) + ((1 : ℕ) : ℚ) + 1) }) :=
  extractScenes_page_start_le_page_end "EXT. B - NIGHT" _ (by
    rw [show extractScenes "EXT. B - NIGHT"
          = [{ scene_number := 1, scene_type := "EXT.", location := "B", time := "NIGHT",
               page_start := 0, page_end := 1,
               content_lines := ["EXT. B - NIGHT".toList],
               dialogue_lines := [], action_lines := ["EXT. B - NIGHT".toList],
               characters_present := [],
               dialogue_frac := ((0 : ℕ) : ℚ) / (((0 : ℕ) : ℚ) + ((1 : ℕ) : ℚ) + 1) }] from rfl]
    exact List.mem_singleton_self _)

/-- Claim C8: every Scene emitted by `extractScenes` has its dialogue
ratio `d / (d + a + 1)` in the half-open interval `[0, 1)` — it can never
reach 1 because of the `+1` smoothing term in the denominator. -/
theorem extractScenes_dialogue_frac_bounds :
    ∀ (text : String), ∀ s ∈ extractScenes text,
      0 ≤ s.dialogue_frac ∧ s.dialogue_frac < 1 := by
  intro text s hs
  unfold extractScenes finishScenes at hs
  rw [List.mem_map] at hs
  obtain ⟨s', _, rfl⟩ := hs
  show 0 ≤ (s'.dialogue_lines.length : ℚ) /
        ((s'.dialogue_lines.length : ℚ) + (s'.action_lines.length : ℚ) + 1) ∧
      (s'.dialogue_lines.length : ℚ) /
        ((s'.dialogue_lines.length : ℚ) + (s'.action_lines.length : ℚ) + 1) < 1
  have hd : (0 : ℚ) ≤ (s'.dialogue_lines.length : ℚ) := Nat.cast_nonneg _
  have ha : (0 : ℚ) ≤ (s'.action_lines.length : ℚ) := Nat.cast_nonneg _
  constructor
  · positivity
  · rw [div_lt_one (by positivity)]
    linarith

/-- Claim C8 (witness): the single scene of a one-header script (no
dialogue, one action line — ratio 0/(0+1+1)). -/
theorem extractScenes_dialogue_frac_bounds_witness :
    0 ≤ (Scene.dialogue_frac
          { scene_number := 1, scene_type := "INT.", location := "A", time := "DAY",
            page_start := 0, page_end := 1,
            content_lines := ["INT. A - DAY".toList],
            dialogue_lines := [], action_lines := ["INT. A - DAY".toList],
            characters_present := [],
            dialogue_frac := ((0 : ℕ) : ℚ) / (((0 : ℕ) : ℚ) + ((1 : ℕ) : ℚ) + 1) }) ∧
    (Scene.dialogue_frac
          { scene_number := 1, scene_type := "INT.", location := "A", time := "DAY",
            page_start := 0, page_end := 1,
            content_lines := ["INT. A - DAY".toList],
            dialogue_lines := [], action_lines := ["INT. A - DAY".toList],
            characters_present := [],
            dialogue_frac := ((0 : ℕ) : ℚ) / (((0 : ℕ) : ℚ) + ((1 : ℕ) : ℚ) + 1) }) < 1 :=
  extractScenes_dialogue_frac_bounds "INT. A - DAY" _ (by
    rw [show extractScenes "INT. A - DAY"
          = [{ scene_number := 1, scene_type := "INT.", location := "A", time := "DAY",
               page_start := 0, page_end := 1,
               content_lines := ["INT. A - DAY".toList],
               dialogue_lines := [], action_lines := ["INT. A - DAY".toList],
               characters_present := [],
               dialogue_frac := ((0 : ℕ) : ℚ) / (((0 : ℕ) : ℚ) + ((1 : ℕ) : ℚ) + 1) }] from rfl]
    exact List.mem_singleton_self _)

/-- `pickFirstMax x xs` is the first-encountered maximum of `x :: xs` by
dialogue-line count: it splits the list around the chosen element, every
element is bounded by it, and everything before it is strictly smaller. -/
theorem pickFirstMax_spec :
    ∀ (xs : List Scene) (x : Scene),
      ∃ pre post, x :: xs = pre ++ pickFirstMax x xs :: post ∧
        (∀ c ∈ x :: xs, c.dialogue_lines.length ≤ (pickFirstMax x xs).dialogue_lines.length) ∧
        (∀ c ∈ pre, c.dialogue_lines.length < (pickFirstMax x xs).dialogue_lines.length) := by
  intro xs
  induction xs with
  | nil =>
    intro x
    refine ⟨[], [], rfl, ?_, by simp⟩
    intro c hc
    rw [List.mem_singleton.mp hc]
    exact le_refl _
  | cons s rest ih =>
    intro x
    simp only [pickFirstMax]
    by_cases h : x.dialogue_lines.length < s.dialogue_lines.length
    · rw [if_pos h]
      obtain ⟨pre, post, heq, hmax, hpre⟩ := ih s
      refine ⟨x :: pre, post, ?_, ?_, ?_⟩
      · rw [List.cons_append, ← heq]
      · intro c hc
        rcases List.mem_cons.mp hc with rfl | hc'
        · exact le_of_lt (lt_of_lt_of_le h (hmax s (List.mem_cons_self s rest)))
        · exact hmax c hc'
      · intro c hc
        rcases List.mem_cons.mp hc with rfl | hc'
        · exact lt_of_lt_of_le h (hmax s (List.mem_cons_self s rest))
        · exact hpre c hc'
    · rw [if_neg h]
      obtain ⟨pre, post, heq, hmax, hpre⟩ := ih x
      cases pre with
      | nil =>
        rw [List.nil_append] at heq
        obtain ⟨h1, h2⟩ := List.cons.inj heq
        refine ⟨[], s :: rest, ?_, ?_, by simp⟩
        · rw [List.nil_append, ← h1]
        · intro c hc
          rcases List.mem_cons.mp hc with rfl | hc'
          · exact hmax c (List.mem_cons_self _ rest)
          · rcases List.mem_cons.mp hc' with rfl | hc''
            · rw [← h1]
              exact le_of_not_lt h
            · exact hmax c (List.mem_cons_of_mem x hc'')
      | cons p pre' =>
        rw [List.cons_append] at heq
        obtain ⟨hxp, hrest⟩ := List.cons.inj heq
        have hxmem : x ∈ p :: pre' := by
          rw [hxp]
          exact List.mem_cons_self p pre'
        have hxlt : x.dialogue_lines.length < (pickFirstMax x rest).dialogue_lines.length :=
          hpre x hxmem
        refine ⟨x :: s :: pre', post, ?_, ?_, ?_⟩
        · rw [List.cons_append, List.cons_append, ← hrest]
        · intro c hc
          rcases List.mem_cons.mp hc with rfl | hc'
          · exact hmax c (List.mem_cons_self _ rest)
          · rcases List.mem_cons.mp hc' with rfl | hc''
            · exact le_of_lt (lt_of_le_of_lt (le_of_not_lt h) hxlt)
            · exact hmax c (List.mem_cons_of_mem x hc'')
        · intro c hc
          rcases List.mem_cons.mp hc with rfl | hc'
          · exact hxlt
          · rcases List.mem_cons.mp hc' with rfl | hc''
            · exact lt_of_le_of_lt (le_of_not_lt h) hxlt
            · exact hpre c (List.mem_cons_of_mem p hc'')

/-- The seven template names are pairwise distinct. -/
theorem beatTemplates_names_nodup : (beatTemplates.map (fun t => t.name)).Nodup := by decide

theorem mem_identifyBeats {scenes : List Scene} {text : String} {b : Beat} :
    b ∈ identifyBeats scenes text ↔ ∃ tpl ∈ beatTemplates, beatOf scenes tpl = some b := by
  unfold identifyBeats
  simp [List.mem_filterMap]

theorem beatOf_none {scenes : List Scene} {tpl : BeatTemplate}
    (h : scenes.filter (fun s => decide (tpl.lo ≤ s.page_start) && decide (s.page_start ≤ tpl.hi)) = []) :
    beatOf scenes tpl = none := by
  unfold beatOf
  dsimp only
  rw [h]

theorem beatOf_name {scenes : List Scene} {tpl : BeatTemplate} {b : Beat}
    (h : beatOf scenes tpl = some b) : b.beat_type = tpl.name := by
  unfold beatOf at h
  dsimp only at h
  split at h
  · cases h
  · rw [← Option.some_inj.mp h]

theorem beatOf_some_spec {scenes : List Scene} {tpl : BeatTemplate} {m : Scene} {ms : List Scene}
    (hf : scenes.filter (fun s => decide (tpl.lo ≤ s.page_start) && decide (s.page_start ≤ tpl.hi)) = m :: ms) :
    beatOf scenes tpl
      = some { beat_type := tpl.name
               page_number := (pickFirstMax m ms).page_start
               scene_number := (pickFirstMax m ms).scene_number
               location := (pickFirstMax m ms).location
               confidence := if 1 < (m :: ms).length then (7/10 : ℚ) else (5/10 : ℚ) } := by
  unfold beatOf
  dsimp only
  rw [hf]

/-- Claim C6: for each beat template, if no scene's `page_start` falls in
its window then `identifyBeats` emits no beat of that type (fewer than
seven beats is a valid outcome); otherwise exactly the first-encountered
scene of maximal dialogue-line count among the window's candidates anchors
the beat, whose confidence is 0.7 when the window held more than one
candidate and 0.5 otherwise. -/
theorem identifyBeats_window_selection :
    ∀ (scenes : List Scene) (text : String) (tpl : BeatTemplate), tpl ∈ beatTemplates →
      ((scenes.filter (fun s => decide (tpl.lo ≤ s.page_start) && decide (s.page_start ≤ tpl.hi)) = [] →
          ∀ b ∈ identifyBeats scenes text, b.beat_type ≠ tpl.name) ∧
       (∀ b ∈ identifyBeats scenes text, b.beat_type = tpl.name →
          ∃ pre anchor post,
            scenes.filter (fun s => decide (tpl.lo ≤ s.page_start) && decide (s.page_start ≤ tpl.hi))
                = pre ++ anchor :: post ∧
            (∀ c ∈ pre ++ anchor :: post,
                c.dialogue_lines.length ≤ anchor.dialogue_lines.length) ∧
            (∀ c ∈ pre, c.dialogue_lines.length < anchor.dialogue_lines.length) ∧
            b.scene_number = anchor.scene_number ∧
            b.page_number = anchor.page_start ∧
            b.confidence = (if 1 < (pre ++ anchor :: post).length then (7/10 : ℚ) else (5/10 : ℚ))) ∧
       (scenes.filter (fun s => decide (tpl.lo ≤ s.page_start) && decide (s.page_start ≤ tpl.hi)) ≠ [] →
          ∃ b ∈ identifyBeats scenes text, b.beat_type = tpl.name)) := by
  intro scenes text tpl htpl
  have hinj := List.inj_on_of_nodup_map beatTemplates_names_nodup
  refine ⟨?_, ?_, ?_⟩
  · intro hemp b hb hname
    obtain ⟨t, ht, hsome⟩ := mem_identifyBeats.mp hb
    have hteq : t = tpl := hinj ht htpl ((beatOf_name hsome).symm.trans hname)
    rw [hteq, beatOf_none hemp] at hsome
    cases hsome
  · intro b hb hname
    obtain ⟨t, ht, hsome⟩ := mem_identifyBeats.mp hb
    have hteq : t = tpl := hinj ht htpl ((beatOf_name hsome).symm.trans hname)
    subst hteq
    cases hf : scenes.filter (fun s => decide (t.lo ≤ s.page_start) && decide (s.page_start ≤ t.hi)) with
    | nil =>
      rw [beatOf_none hf] at hsome
      cases hsome
    | cons m ms =>
      rw [beatOf_some_spec hf] at hsome
      obtain ⟨pre, post, heq, hmax, hpre⟩ := pickFirstMax_spec ms m
      have hb' := Option.some_inj.mp hsome
      refine ⟨pre, pickFirstMax m ms, post, ?_, ?_, hpre, ?_, ?_, ?_⟩
      · exact heq
      · intro c hc
        rw [← heq] at hc
        exact hmax c hc
      · rw [← hb']
      · rw [← hb']
      · rw [← hb']
        show (if 1 < (m :: ms).length then (7/10 : ℚ) else (5/10 : ℚ)) = _
        rw [heq]
  · intro hne
    cases hf : scenes.filter (fun s => decide (tpl.lo ≤ s.page_start) && decide (s.page_start ≤ tpl.hi)) with
    | nil => exact absurd hf hne
    | cons m ms =>
      exact ⟨_, mem_identifyBeats.mpr ⟨tpl, htpl, beatOf_some_spec hf⟩, rfl⟩

/-- Claim C6 (witness): a single page-60 scene, matched by the Midpoint
template. -/
theorem identifyBeats_window_selection_witness :
    ∃ b ∈ identifyBeats
        [{ scene_number := 7, scene_type := "INT.", location := "LAB", time := "NIGHT",
           page_start := 60, page_end := 60, content_lines := [], dialogue_lines := [],
           action_lines := [], characters_present := [], dialogue_frac := 0 }] "x",
      b.beat_type = "Midpoint" :=
  (identifyBeats_window_selection
      [{ scene_number := 7, scene_type := "INT.", location := "LAB", time := "NIGHT",
         page_start := 60, page_end := 60, content_lines := [], dialogue_lines := [],
         action_lines := [], characters_present := [], dialogue_frac := 0 }] "x"
      ⟨"Midpoint", 55, 65⟩ (by decide)).2.2 (by decide)
